import Mathlib

/-!
Verification of the HCP interaction-log backend (src/main.py) against its
natural-language specification.

The development shallowly embeds the Python module: JSON values are an
inductive type, Python dictionaries are association lists, fallible Python
code is `Except PyErr`, and the two external collaborators (the Groq
completion service and the `json.loads` / `json.dumps` library functions)
are parameters collected in an `Env` record, together with the reading of
the process clock (`datetime.utcnow().isoformat()`).  Every definition is
translated from the source file; comments cite the Python lines embedded.
-/

/-- JSON values, as produced by `json.loads` (numbers restricted to
integers; no claim under verification involves numeric JSON values). -/
inductive Json where
  | null : Json
  | bool (b : Bool) : Json
  | num (n : Int) : Json
  | str (s : String) : Json
  | arr (elems : List Json) : Json
  | obj (fields : List (String × Json)) : Json

/-- Python runtime errors that the embedded code can raise:
`HTTPException(status, detail)` from `fastapi`, and the built-in
`AttributeError` / `TypeError` / `KeyError`. -/
inductive PyErr where
  | httpError (status : Nat) (detail : String) : PyErr
  | attributeError : PyErr
  | typeError : PyErr
  | keyError : PyErr
deriving DecidableEq, Repr

/-- Python truthiness (`bool(x)`) of a JSON value: `None`, `False`, `0`,
`""`, `[]` and the empty dict are falsy. -/
def falsy : Json → Bool
  | Json.null => true
  | Json.bool b => !b
  | Json.num n => n == 0
  | Json.str s => s == ""
  | Json.arr [] => true
  | Json.arr (_ :: _) => false
  | Json.obj [] => true
  | Json.obj (_ :: _) => false

/-- Python `x or d` for a JSON value `x` and default `d`. -/
def pyOrJ (v d : Json) : Json := if falsy v then d else v

/-- Python slicing `s[:n]` on a string: the first `n` code points. -/
def pySlice (s : String) (n : Nat) : String := String.mk (s.data.take n)

/-- Python `s.lower()`.  Approximated by ASCII lowercasing; full Unicode
case folding is not modelled (no claim involves non-ASCII letters). -/
def pyLower (s : String) : String := String.mk (s.data.map Char.toLower)

/-- Python `s.replace("Z", "+00:00")` (source lines 206 and 255): every
occurrence of the single character `Z` is replaced. -/
def replaceZ : List Char → List Char
  | [] => []
  | c :: cs =>
      if c = 'Z' then '+' :: '0' :: '0' :: ':' :: '0' :: '0' :: replaceZ cs
      else c :: replaceZ cs

/-- String-level wrapper of `replaceZ`. -/
def pyReplaceZ (s : String) : String := String.mk (replaceZ s.data)

/-- Python substring containment `needle in hay`. -/
def pyContains (hay needle : String) : Prop := needle.data <:+: hay.data

instance (hay needle : String) : Decidable (pyContains hay needle) :=
  List.decidableInfix needle.data hay.data

mutual
/-- Python `str(x)` of a JSON value, as used by f-string interpolation.
Exact for strings, integers, booleans and `None`; for composite values the
single-quote escaping done by `repr` is approximated (no claim depends on
formatting a composite value). -/
def pyStr : Json → String
  | Json.str s => s
  | Json.num n => toString n
  | Json.bool b => if b then "True" else "False"
  | Json.null => "None"
  | Json.arr xs => "[" ++ String.intercalate ", " (pyReprList xs) ++ "]"
  | Json.obj fs => "\x7b" ++ String.intercalate ", " (pyReprFields fs) ++ "\x7d"

/-- Python `repr(x)` of a JSON value (approximate, see `pyStr`). -/
def pyRepr : Json → String
  | Json.str s => "'" ++ s ++ "'"
  | Json.num n => toString n
  | Json.bool b => if b then "True" else "False"
  | Json.null => "None"
  | Json.arr xs => "[" ++ String.intercalate ", " (pyReprList xs) ++ "]"
  | Json.obj fs => "\x7b" ++ String.intercalate ", " (pyReprFields fs) ++ "\x7d"

/-- The reprs of the elements of a JSON array. -/
def pyReprList : List Json → List String
  | [] => []
  | x :: xs => pyRepr x :: pyReprList xs

/-- The reprs of the entries of a JSON object. -/
def pyReprFields : List (String × Json) → List String
  | [] => []
  | (k, v) :: fs => (pyRepr (Json.str k) ++ ": " ++ pyRepr v) :: pyReprFields fs
end

/-- Python `d.get(k)` on a value that is supposed to be a dict: returns
the entry (`none` when the key is absent, i.e. Python `None`) and raises
`AttributeError` when the value is not a dict. -/
def pyGet (j : Json) (k : String) : Except PyErr (Option Json) :=
  match j with
  | Json.obj fs => Except.ok (List.lookup k fs)
  | _ => Except.error PyErr.attributeError

/-- Python `", ".join(flags)`: succeeds on a list of strings (and on a
string, whose characters are joined); raises `TypeError` on a non-iterable
value and on list elements that are not strings. -/
def pyJoin (sep : String) : Json → Except PyErr String
  | Json.arr xs =>
      match asStrings xs with
      | some ss => Except.ok (String.intercalate sep ss)
      | none => Except.error PyErr.typeError
  | Json.str s => Except.ok (String.intercalate sep (s.data.map String.singleton))
  | _ => Except.error PyErr.typeError
where
  /-- Extracts the strings of a JSON array, failing on a non-string element. -/
  asStrings : List Json → Option (List String)
    | [] => some []
    | Json.str s :: xs => (asStrings xs).map (fun ss => s :: ss)
    | _ :: _ => none

/-- The configuration and the external collaborators of the process
(src/main.py lines 25-39 and the out-of-scope interfaces of spec section
1): the `GROQ_API_KEY` environment value, the completion service (returning
`message.content`, which may be `None`), the `json.loads` parser
(`none` = parse exception), the `json.dumps` serializer, and the reading
of the process clock `datetime.utcnow().isoformat()`. -/
structure Env where
  GROQ_API_KEY : String
  service : String → String → Option String
  parseJson : String → Option Json
  dumps : Json → String
  now : String

/-- The Groq client object (src/main.py line 39). -/
structure Client where
  api_key : String
deriving DecidableEq

/-- Source line 39: `client = Groq(api_key=GROQ_API_KEY) if GROQ_API_KEY
else None`, evaluated once at module load. -/
def makeClient (key : String) : Option Client :=
  if key ≠ "" then some ⟨key⟩ else none

/-- Source lines 122-133, `groq_chat(system, user)`: raises
`HTTPException(500)` when the client is `None`, otherwise issues a single
completion request and returns `resp.choices[0].message.content or ""`.
The model-name argument only selects the served model and is absorbed into
the service parameter. -/
def groq_chat (env : Env) (system user : String) : Except PyErr String :=
  match makeClient env.GROQ_API_KEY with
  | none => Except.error (PyErr.httpError 500 "GROQ_API_KEY not set on backend")
  | some _ => Except.ok ((env.service system user).getD "")

/-- The system prompt of `tool_summarize_and_extract` (source lines 272-282). -/
def EXTRACT_SYSTEM : String :=
  "You are an expert life-sciences CRM assistant for field reps.\n" ++
  "Return STRICT JSON only with keys:\n" ++
  "\x7b \"summary\":\"...\", \"entities\": \x7b \"hcp_name\":\"\", \"specialty\":\"\", \"organization\":\"\", \"channel\":\"\", " ++
  "\"purpose\":\"\", \"products_discussed\":\"\", \"key_points\":\"\", \"outcome\":\"\", \"next_steps\":\"\", \"follow_up_date\":\"\" \x7d \x7d\n" ++
  "Rules:\n" ++
  "- Keep summary <= 3 lines.\n" ++
  "- If a field is missing, keep it empty.\n" ++
  "- channel must be one of: in_person, call, video, email, whatsapp, other.\n" ++
  "- follow_up_date should be YYYY-MM-DD if possible.\n"

/-- The system prompt of `tool_compliance_check_llm` (source lines 185-189). -/
def COMPLIANCE_SYSTEM : String :=
  "You are a pharma compliance checker. Return strict JSON only:\n" ++
  "\x7b \"flags\": [..], \"severity\": \"low|medium|high\", \"notes\": \"...\" \x7d.\n" ++
  "Flags examples: off_label, promotion_to_patient, safety_missing, unbalanced_claim, competitor_bashing, pii_risk.\n"

/-- Source lines 265-287, `tool_summarize_and_extract(text)`: asks the
completion client (outside any exception handler, so a configuration
error propagates), then `json.loads` the reply; a parse exception falls
back to the degraded result with `summary = text[:180]` and empty
entities. -/
def tool_summarize_and_extract (env : Env) (text : String) : Except PyErr Json :=
  match groq_chat env EXTRACT_SYSTEM ("Interaction text:\n" ++ text ++ "\nReturn JSON only.") with
  | Except.error e => Except.error e
  | Except.ok out =>
      match env.parseJson out with
      | some j => Except.ok j
      | none => Except.ok (Json.obj
          [("summary", Json.str (pySlice text 180)), ("entities", Json.obj [])])

/-- Source lines 180-194, `tool_compliance_check_llm(text)`: one
completion call (outside the try block), then `json.loads`; a parse
exception yields the sentinel result with the raw reply truncated to 400
characters. -/
def tool_compliance_check_llm (env : Env) (text : String) : Except PyErr Json :=
  match groq_chat env COMPLIANCE_SYSTEM ("Text:\n" ++ text ++ "\nReturn JSON only.") with
  | Except.error e => Except.error e
  | Except.ok out =>
      match env.parseJson out with
      | some j => Except.ok j
      | none => Except.ok (Json.obj
          [("flags", Json.arr [Json.str "parse_error"]),
           ("severity", Json.str "low"),
           ("notes", Json.str (pySlice out 400))])

/-- The two canned recommendations of `tool_suggest_next_best_action`
(source lines 174-177). -/
def NBA_ASYNC : String :=
  "Send a balanced follow-up message with approved materials and confirm next meeting date."

/-- The visit/call recommendation of `tool_suggest_next_best_action`. -/
def NBA_VISIT : String :=
  "Schedule a follow-up visit/call and share approved clinical summary + address any objections."

/-- Source lines 168-178, `tool_suggest_next_best_action(extracted)`:
`channel = (extracted.get("channel") or "").lower()`; a truthy non-string
channel value makes `.lower()` raise `AttributeError`.  Returns the
singleton dict with key `next_best_action`. -/
def tool_suggest_next_best_action (extracted : List (String × Json)) : Except PyErr Json :=
  let cv := pyOrJ ((List.lookup "channel" extracted).getD Json.null) (Json.str "")
  match cv with
  | Json.str s =>
      let channel := pyLower s
      let nba := if channel = "email" ∨ channel = "whatsapp" then NBA_ASYNC else NBA_VISIT
      Except.ok (Json.obj [("next_best_action", Json.str nba)])
  | _ => Except.error PyErr.attributeError

/-- The draft interaction dict built by `node_extract` (source lines
321-337).  Field values are JSON values because the model-extracted
entities pass through verbatim. -/
structure Draft where
  hcp_name : Json
  specialty : Json
  organization : Json
  interaction_datetime : Json
  channel : Json
  purpose : Json
  products_discussed : Json
  key_points : Json
  outcome : Json
  next_steps : Json
  follow_up_date : Json
  raw_notes : Json
  ai_summary : Json
  ai_entities_json : Json
  compliance_flags_json : Json

/-- The draft as the Python dict it is, in the key order of source lines
321-337 (used where the code passes the whole draft to a tool). -/
def Draft.toFields (d : Draft) : List (String × Json) :=
  [("hcp_name", d.hcp_name), ("specialty", d.specialty),
   ("organization", d.organization),
   ("interaction_datetime", d.interaction_datetime), ("channel", d.channel),
   ("purpose", d.purpose), ("products_discussed", d.products_discussed),
   ("key_points", d.key_points), ("outcome", d.outcome),
   ("next_steps", d.next_steps), ("follow_up_date", d.follow_up_date),
   ("raw_notes", d.raw_notes), ("ai_summary", d.ai_summary),
   ("ai_entities_json", d.ai_entities_json),
   ("compliance_flags_json", d.compliance_flags_json)]

/-- Stand-in for the empty dict `\x7b\x7d` that `node_compliance` and
`node_respond` substitute for a missing draft: every access the code
performs on that dict is a `.get` whose default kicks in, which behaves
exactly like this all-empty-string draft. -/
def emptyDraft : Draft :=
  ⟨Json.str "", Json.str "", Json.str "", Json.str "", Json.str "",
   Json.str "", Json.str "", Json.str "", Json.str "", Json.str "",
   Json.str "", Json.str "", Json.str "", Json.str "", Json.str ""⟩

/-- The orchestrator state (source lines 145-151, `AgentState`,
`total=False`: absent keys are `none`).  `extracted` holds the dict
`\x7b "draft": draft \x7d`, modelled by its only entry. -/
structure AgentState where
  thread_id : Option String := none
  user_message : String := ""
  intent : Option String := none
  extracted : Option Draft := none
  compliance : Option Json := none
  assistant_message : Option String := none

/-- Source lines 300-310, `node_route_intent`: keyword inspection of the
lowercased message. -/
def node_route_intent (state : AgentState) : AgentState :=
  let text := pyLower state.user_message
  if pyContains text "edit" ∨ pyContains text "change" ∨ pyContains text "update" then
    { state with intent := some "edit" }
  else
    { state with intent := some "log" }

/-- Source lines 312-339, `node_extract`: runs the extraction tool, reads
`entities` and `summary` off the parsed result (an `AttributeError` when
the result is not a dict), and builds the draft.  A truthy non-dict
`entities` value makes the first `entities.get` raise. -/
def node_extract (env : Env) (state : AgentState) : Except PyErr AgentState :=
  match tool_summarize_and_extract env state.user_message with
  | Except.error e => Except.error e
  | Except.ok result =>
      match result with
      | Json.obj rs =>
          let entities := pyOrJ ((List.lookup "entities" rs).getD Json.null) (Json.obj [])
          let summary := pyOrJ ((List.lookup "summary" rs).getD Json.null) (Json.str "")
          match entities with
          | Json.obj es =>
              let draft : Draft :=
                { hcp_name := (List.lookup "hcp_name" es).getD (Json.str ""),
                  specialty := (List.lookup "specialty" es).getD (Json.str ""),
                  organization := (List.lookup "organization" es).getD (Json.str ""),
                  interaction_datetime := Json.str env.now,
                  channel := pyOrJ ((List.lookup "channel" es).getD (Json.str "in_person"))
                    (Json.str "in_person"),
                  purpose := (List.lookup "purpose" es).getD (Json.str ""),
                  products_discussed := (List.lookup "products_discussed" es).getD (Json.str ""),
                  key_points := (List.lookup "key_points" es).getD (Json.str ""),
                  outcome := (List.lookup "outcome" es).getD (Json.str ""),
                  next_steps := (List.lookup "next_steps" es).getD (Json.str ""),
                  follow_up_date := (List.lookup "follow_up_date" es).getD (Json.str ""),
                  raw_notes := Json.str state.user_message,
                  ai_summary := summary,
                  ai_entities_json := Json.str (env.dumps (Json.obj es)),
                  compliance_flags_json := Json.str "" }
              Except.ok { state with extracted := some draft }
          | _ => Except.error PyErr.attributeError
      | _ => Except.error PyErr.attributeError

/-- Source lines 341-349, `node_compliance`: concatenates raw notes and
summary, runs the compliance tool, stores the result in the state and
(re-serialized) on the draft.  The write `state["extracted"]["draft"]`
raises `KeyError` when `extracted` was never set. -/
def node_compliance (env : Env) (state : AgentState) : Except PyErr AgentState :=
  let draft := state.extracted.getD emptyDraft
  let combined := pyStr draft.raw_notes ++ "\nSummary: " ++ pyStr draft.ai_summary
  match tool_compliance_check_llm env combined with
  | Except.error e => Except.error e
  | Except.ok compliance =>
      match state.extracted with
      | none => Except.error PyErr.keyError
      | some _ =>
          Except.ok { state with
            compliance := some compliance,
            extracted := some { draft with
              compliance_flags_json := Json.str (env.dumps compliance) } }

/-- The compliance dict `node_respond` works from:
`state.get("compliance") or \x7b\x7d` (source line 355). -/
def respondComp (state : AgentState) : Json :=
  pyOrJ ((state.compliance).getD Json.null) (Json.obj [])

/-- The flags value of `node_respond` after defaulting:
`(state.get("compliance") or \x7b\x7d).get("flags") or []` (source line
355); errors when the compliance value is a truthy non-dict. -/
def respondFlags (state : AgentState) : Except PyErr Json :=
  match pyGet (respondComp state) "flags" with
  | Except.error e => Except.error e
  | Except.ok f => Except.ok (pyOrJ (f.getD Json.null) (Json.arr []))

/-- The severity value of `node_respond` after defaulting (source line 356). -/
def respondSev (state : AgentState) : Except PyErr Json :=
  match pyGet (respondComp state) "severity" with
  | Except.error e => Except.error e
  | Except.ok s => Except.ok (pyOrJ (s.getD Json.null) (Json.str "low"))

/-- Python `flags != ["parse_error"]`, specialized to the only comparison
the code makes (source line 362). -/
def isParseErrorList : Json → Bool
  | Json.arr [Json.str s] => s == "parse_error"
  | _ => false

/-- The fixed closing line of the assistant message (source line 364). -/
def FINAL_LINE : String :=
  "If this looks correct, click **Save Interaction** in the UI. If not, edit the fields and save."

/-- The fixed head of the assistant message, up to the advisor text
(source lines 358-360). -/
def RESPOND_HEAD : String :=
  "✅ I extracted a draft interaction and filled the form fields.\n• Next best action: "

/-- The fixed prefix of the compliance warning line (source line 363); the
line occurs in an assistant message exactly when this prefix does. -/
def WARN_PREFIX : String := "⚠️ Compliance flags ("

/-- Source lines 351-367, `node_respond`: assembles the assistant message
from the advisor recommendation and the compliance result; the warning
line is appended only when flags are truthy and differ from the sentinel
`["parse_error"]`. -/
def node_respond (state : AgentState) : Except PyErr AgentState :=
  let draft := state.extracted.getD emptyDraft
  match tool_suggest_next_best_action draft.toFields with
  | Except.error e => Except.error e
  | Except.ok nbaObj =>
      match pyGet nbaObj "next_best_action" with
      | Except.error e => Except.error e
      | Except.ok nbaOpt =>
          let nba := pyStr ((nbaOpt).getD (Json.str ""))
          match respondFlags state with
          | Except.error e => Except.error e
          | Except.ok flags =>
              match respondSev state with
              | Except.error e => Except.error e
              | Except.ok sev =>
                  let msg0 := RESPOND_HEAD ++ nba ++ "\n"
                  if ¬ falsy flags = true ∧ ¬ isParseErrorList flags = true then
                    match pyJoin ", " flags with
                    | Except.error e => Except.error e
                    | Except.ok joined =>
                        let warn := WARN_PREFIX ++ pyStr sev ++ "): " ++ joined ++ "\n"
                        Except.ok { state with assistant_message := some ((msg0 ++ warn) ++ FINAL_LINE) }
                  else
                    Except.ok { state with assistant_message := some (msg0 ++ FINAL_LINE) }

/-- The chat request body (source lines 115-117). -/
structure ChatReq where
  thread_id : Option String := none
  message : String

/-- The chat response body (source lines 432-435): the assistant message
and `draft or \x7b\x7d` (`none` models the empty dict). -/
structure ChatResp where
  assistant_message : String
  draft_interaction : Option Draft

/-- Python `x or "default"` on an optional string (source line 426). -/
def pyOrS (x : Option String) (d : String) : String :=
  match x with
  | none => d
  | some s => if s == "" then d else s

/-- Source lines 418-435, `agent_chat`, together with the compiled graph
of lines 370-382: the four nodes run in the fixed linear order
route_intent → extract → compliance → respond on a state created fresh
for the request; the response carries `out.get("assistant_message",
"Done.")` and the draft. -/
def agent_chat (env : Env) (req : ChatReq) : Except PyErr ChatResp :=
  let st0 : AgentState := { thread_id := some (pyOrS req.thread_id "default"),
                            user_message := req.message }
  let st1 := node_route_intent st0
  match node_extract env st1 with
  | Except.error e => Except.error e
  | Except.ok st2 =>
      match node_compliance env st2 with
      | Except.error e => Except.error e
      | Except.ok st3 =>
          match node_respond st3 with
          | Except.error e => Except.error e
          | Except.ok out =>
              Except.ok { assistant_message := (out.assistant_message).getD "Done.",
                          draft_interaction := out.extracted }

/-- A Python value as it can sit in a column of an `Interaction` row after
a permissive `setattr`: a string, `None`, or a `datetime` (datetimes
abstracted to a number; their internal structure is irrelevant to the
claims). -/
inductive PyVal where
  | vstr (s : String) : PyVal
  | vnull : PyVal
  | vdt (t : Nat) : PyVal
deriving DecidableEq, Repr

/-- A persisted `hcp_interactions` row (source lines 48-72).  The content
columns hold `PyVal` because `tool_edit_interaction` assigns patch values
to them without type checking; `interaction_datetime` likewise (normally a
datetime).  `created_at` / `updated_at` are datetimes. -/
structure Interaction where
  id : Nat
  hcp_name : PyVal
  specialty : PyVal
  organization : PyVal
  interaction_datetime : PyVal
  channel : PyVal
  purpose : PyVal
  products_discussed : PyVal
  key_points : PyVal
  outcome : PyVal
  next_steps : PyVal
  follow_up_date : PyVal
  raw_notes : PyVal
  ai_summary : PyVal
  ai_entities_json : PyVal
  compliance_flags_json : PyVal
  created_at : Nat
  updated_at : Nat
deriving DecidableEq, Repr

/-- The `allowed` field-name set of `tool_edit_interaction` (source lines
245-249). -/
def allowedFields : List String :=
  ["hcp_name", "specialty", "organization", "interaction_datetime", "channel",
   "purpose", "products_discussed", "key_points", "outcome", "next_steps",
   "follow_up_date", "raw_notes", "ai_summary", "ai_entities_json",
   "compliance_flags_json"]

/-- The fifteen mutable columns of an `Interaction` row, as an
enumeration (the recognized field names of `allowedFields`). -/
inductive Col where
  | hcp_name | specialty | organization | interaction_datetime | channel
  | purpose | products_discussed | key_points | outcome | next_steps
  | follow_up_date | raw_notes | ai_summary | ai_entities_json
  | compliance_flags_json
deriving DecidableEq, Repr

/-- The field name of a column. -/
def keyOfCol : Col → String
  | Col.hcp_name => "hcp_name"
  | Col.specialty => "specialty"
  | Col.organization => "organization"
  | Col.interaction_datetime => "interaction_datetime"
  | Col.channel => "channel"
  | Col.purpose => "purpose"
  | Col.products_discussed => "products_discussed"
  | Col.key_points => "key_points"
  | Col.outcome => "outcome"
  | Col.next_steps => "next_steps"
  | Col.follow_up_date => "follow_up_date"
  | Col.raw_notes => "raw_notes"
  | Col.ai_summary => "ai_summary"
  | Col.ai_entities_json => "ai_entities_json"
  | Col.compliance_flags_json => "compliance_flags_json"

/-- The column named by a string, `none` for unrecognized names. -/
def colOfKey (k : String) : Option Col :=
  if k = "hcp_name" then some Col.hcp_name
  else if k = "specialty" then some Col.specialty
  else if k = "organization" then some Col.organization
  else if k = "interaction_datetime" then some Col.interaction_datetime
  else if k = "channel" then some Col.channel
  else if k = "purpose" then some Col.purpose
  else if k = "products_discussed" then some Col.products_discussed
  else if k = "key_points" then some Col.key_points
  else if k = "outcome" then some Col.outcome
  else if k = "next_steps" then some Col.next_steps
  else if k = "follow_up_date" then some Col.follow_up_date
  else if k = "raw_notes" then some Col.raw_notes
  else if k = "ai_summary" then some Col.ai_summary
  else if k = "ai_entities_json" then some Col.ai_entities_json
  else if k = "compliance_flags_json" then some Col.compliance_flags_json
  else none

/-- Writes one column of a row. -/
def setCol (r : Interaction) (c : Col) (v : PyVal) : Interaction :=
  match c with
  | Col.hcp_name => { r with hcp_name := v }
  | Col.specialty => { r with specialty := v }
  | Col.organization => { r with organization := v }
  | Col.interaction_datetime => { r with interaction_datetime := v }
  | Col.channel => { r with channel := v }
  | Col.purpose => { r with purpose := v }
  | Col.products_discussed => { r with products_discussed := v }
  | Col.key_points => { r with key_points := v }
  | Col.outcome => { r with outcome := v }
  | Col.next_steps => { r with next_steps := v }
  | Col.follow_up_date => { r with follow_up_date := v }
  | Col.raw_notes => { r with raw_notes := v }
  | Col.ai_summary => { r with ai_summary := v }
  | Col.ai_entities_json => { r with ai_entities_json := v }
  | Col.compliance_flags_json => { r with compliance_flags_json := v }

/-- Reads one column of a row. -/
def getCol (r : Interaction) : Col → PyVal
  | Col.hcp_name => r.hcp_name
  | Col.specialty => r.specialty
  | Col.organization => r.organization
  | Col.interaction_datetime => r.interaction_datetime
  | Col.channel => r.channel
  | Col.purpose => r.purpose
  | Col.products_discussed => r.products_discussed
  | Col.key_points => r.key_points
  | Col.outcome => r.outcome
  | Col.next_steps => r.next_steps
  | Col.follow_up_date => r.follow_up_date
  | Col.raw_notes => r.raw_notes
  | Col.ai_summary => r.ai_summary
  | Col.ai_entities_json => r.ai_entities_json
  | Col.compliance_flags_json => r.compliance_flags_json

/-- Python `setattr(row, k, v)` for the recognized column names (the code
only calls it with `k` in `allowedFields`; other names leave the row
unchanged). -/
def setattrI (r : Interaction) (k : String) (v : PyVal) : Interaction :=
  match colOfKey k with
  | some c => setCol r c v
  | none => r

/-- Reads the column named `k` back off a row (verification-side accessor
for stating per-field properties; `PyVal.vnull` for unknown names). -/
def getColumn (r : Interaction) (k : String) : PyVal :=
  match colOfKey k with
  | some c => getCol r c
  | none => PyVal.vnull

/-- One iteration of the patch loop of `tool_edit_interaction` (source
lines 250-260): unrecognized keys are skipped; a string patched into
`interaction_datetime` is parsed (`Z` first rewritten to `+00:00`) and
silently dropped when unparsable; every other value is assigned, with
`None` replaced by the empty string.  `fromiso` models
`datetime.fromisoformat(s).replace(tzinfo=None)`, returning `none` when
the library raises. -/
def applyPatchItem (fromiso : String → Option Nat) (r : Interaction)
    (k : String) (v : PyVal) : Interaction :=
  if k ∈ allowedFields then
    match v with
    | PyVal.vstr s =>
        if k = "interaction_datetime" then
          match fromiso (pyReplaceZ s) with
          | some t => setattrI r k (PyVal.vdt t)
          | none => r
        else setattrI r k (PyVal.vstr s)
    | PyVal.vnull => setattrI r k (PyVal.vstr "")
    | PyVal.vdt t => setattrI r k (PyVal.vdt t)
  else r

/-- The whole patch loop (source lines 250-260), iterating the patch dict
in insertion order. -/
def applyPatch (fromiso : String → Option Nat) (r : Interaction)
    (patch : List (String × PyVal)) : Interaction :=
  patch.foldl (fun acc kv => applyPatchItem fromiso acc kv.1 kv.2) r

/-- The result value of `tool_edit_interaction`. -/
inductive EditResult where
  | ok : EditResult
  | not_found : EditResult
deriving DecidableEq, Repr

/-- Replaces the first row satisfying `p` (the row the ORM query returns
and the commit writes back); rows further on are untouched. -/
def updateFirst (p : Interaction → Bool) (f : Interaction → Interaction) :
    List Interaction → List Interaction
  | [] => []
  | r :: rs => if p r then f r :: rs else r :: updateFirst p f rs

/-- Source lines 234-263, `tool_edit_interaction(db, interaction_id,
patch)`: fetches the first row with the given id, returns `not_found`
without touching the store when there is none, otherwise applies the
patch loop, stamps `updated_at` and commits.  The clock reading
`datetime.utcnow()` at line 261 is the `now` argument. -/
def tool_edit_interaction (fromiso : String → Option Nat) (now : Nat)
    (db : List Interaction) (interaction_id : Nat)
    (patch : List (String × PyVal)) : EditResult × List Interaction :=
  match db.find? (fun r => r.id == interaction_id) with
  | none => (EditResult.not_found, db)
  | some _ =>
      (EditResult.ok,
       updateFirst (fun r => r.id == interaction_id)
         (fun r => { applyPatch fromiso r patch with updated_at := now }) db)

/-- Source lines 465-479, the `PUT /api/interactions/(id)` handler: runs
the edit tool, answers 404 when it reports `not_found`, otherwise re-reads
and returns the row (`to_dict(None)` would raise `AttributeError` if the
re-read found nothing). -/
def edit_interaction (fromiso : String → Option Nat) (now : Nat)
    (db : List Interaction) (interaction_id : Nat)
    (patch : List (String × PyVal)) : Except PyErr Interaction × List Interaction :=
  match tool_edit_interaction fromiso now db interaction_id patch with
  | (EditResult.not_found, db2) =>
      (Except.error (PyErr.httpError 404 "Interaction not found"), db2)
  | (EditResult.ok, db2) =>
      match db2.find? (fun r => r.id == interaction_id) with
      | some row => (Except.ok row, db2)
      | none => (Except.error PyErr.attributeError, db2)

/-! Theorems.  Each claim of the specification gets one theorem (with a
witness instantiation when the theorem carries hypotheses). -/

/-- A concrete environment whose model stub answers text that never
parses as JSON (used to instantiate hypothesis-bearing theorems). -/
def stubEnvNoParse : Env :=
  ⟨"key", fun _ _ => some "model babble", fun _ => none, fun _ => "\x7b\x7d",
   "2024-01-01T00:00:00"⟩

/-- A concrete environment with no credential configured. -/
def stubEnvNoKey : Env :=
  ⟨"", fun _ _ => some "x", fun _ => none, fun _ => "", "2024-01-01T00:00:00"⟩

/-- C1: for every raw text input to the Extraction Stage, if the model
reply does not parse as JSON, `tool_summarize_and_extract` returns —
without raising — a result whose summary equals the first
at-most-180-character prefix of the input text and whose entities mapping
is empty. -/
theorem c1_extract_parse_fallback (env : Env) (text out : String)
    (hout : groq_chat env EXTRACT_SYSTEM
      ("Interaction text:\n" ++ text ++ "\nReturn JSON only.") = Except.ok out)
    (hparse : env.parseJson out = none) :
    tool_summarize_and_extract env text = Except.ok (Json.obj
      [("summary", Json.str (pySlice text 180)), ("entities", Json.obj [])]) ∧
    (pySlice text 180).data <+: text.data ∧ (pySlice text 180).length ≤ 180 := by
  refine ⟨?_, ?_, ?_⟩
  · simp only [tool_summarize_and_extract, hout, hparse]
  · exact List.take_prefix 180 text.data
  · show (text.data.take 180).length ≤ 180
    rw [List.length_take]
    exact min_le_left _ _

/-- Witness for C1 at a concrete input and model stub. -/
theorem c1_witness :
    tool_summarize_and_extract stubEnvNoParse "Met Dr. Smith" = Except.ok (Json.obj
      [("summary", Json.str (pySlice "Met Dr. Smith" 180)), ("entities", Json.obj [])]) ∧
    (pySlice "Met Dr. Smith" 180).data <+: "Met Dr. Smith".data ∧
    (pySlice "Met Dr. Smith" 180).length ≤ 180 :=
  c1_extract_parse_fallback stubEnvNoParse "Met Dr. Smith" "model babble" rfl rfl

/-- C2: for every text input to the Compliance Stage, if the model reply
does not parse as JSON, `tool_compliance_check_llm` returns — without
raising — exactly the mapping with flags `["parse_error"]`, severity
`"low"`, and notes a truncated (at most 400 characters) prefix of the raw
model output. -/
theorem c2_compliance_parse_fallback (env : Env) (text out : String)
    (hout : groq_chat env COMPLIANCE_SYSTEM
      ("Text:\n" ++ text ++ "\nReturn JSON only.") = Except.ok out)
    (hparse : env.parseJson out = none) :
    tool_compliance_check_llm env text = Except.ok (Json.obj
      [("flags", Json.arr [Json.str "parse_error"]),
       ("severity", Json.str "low"),
       ("notes", Json.str (pySlice out 400))]) ∧
    (pySlice out 400).data <+: out.data ∧ (pySlice out 400).length ≤ 400 := by
  refine ⟨?_, ?_, ?_⟩
  · simp only [tool_compliance_check_llm, hout, hparse]
  · exact List.take_prefix 400 out.data
  · show (out.data.take 400).length ≤ 400
    rw [List.length_take]
    exact min_le_left _ _

/-- Witness for C2 at a concrete input and model stub. -/
theorem c2_witness :
    tool_compliance_check_llm stubEnvNoParse "some note" = Except.ok (Json.obj
      [("flags", Json.arr [Json.str "parse_error"]),
       ("severity", Json.str "low"),
       ("notes", Json.str (pySlice "model babble" 400))]) ∧
    (pySlice "model babble" 400).data <+: "model babble".data ∧
    (pySlice "model babble" 400).length ≤ 400 :=
  c2_compliance_parse_fallback stubEnvNoParse "some note" "model babble" rfl rfl

/-- C9: the completion operation fails with the configuration error
exactly when no credential was present at process start (the client is
built once, at module load); the failure is identical for every call,
carries HTTP status 500 (a server error), is not retried, and propagates
uncaught out of the chat pipeline to the caller; with a credential the
call succeeds. -/
theorem c9_configuration_error (env : Env) :
    (makeClient env.GROQ_API_KEY = none ↔ env.GROQ_API_KEY = "") ∧
    (env.GROQ_API_KEY = "" → ∀ sys usr, groq_chat env sys usr =
       Except.error (PyErr.httpError 500 "GROQ_API_KEY not set on backend")) ∧
    (env.GROQ_API_KEY ≠ "" → ∀ sys usr, groq_chat env sys usr =
       Except.ok ((env.service sys usr).getD "")) ∧
    (env.GROQ_API_KEY = "" → ∀ req, agent_chat env req =
       Except.error (PyErr.httpError 500 "GROQ_API_KEY not set on backend")) := by
  refine ⟨?_, ?_, ?_, ?_⟩
  · constructor
    · intro h
      by_contra hne
      simp [makeClient, hne] at h
    · intro h
      simp [makeClient, h]
  · intro h sys usr
    simp [groq_chat, makeClient, h]
  · intro h sys usr
    simp [groq_chat, makeClient, h]
  · intro h req
    simp [agent_chat, node_extract, tool_summarize_and_extract, groq_chat, makeClient, h]

/-- Witness for C9: with an empty credential every call (and the whole
pipeline) reports the 500 configuration error; with a credential the call
succeeds. -/
theorem c9_witness :
    groq_chat stubEnvNoKey "a" "b" =
      Except.error (PyErr.httpError 500 "GROQ_API_KEY not set on backend") ∧
    agent_chat stubEnvNoKey ⟨none, "hello"⟩ =
      Except.error (PyErr.httpError 500 "GROQ_API_KEY not set on backend") ∧
    groq_chat stubEnvNoParse "a" "b" = Except.ok "model babble" :=
  ⟨(c9_configuration_error stubEnvNoKey).2.1 rfl "a" "b",
   (c9_configuration_error stubEnvNoKey).2.2.2 rfl ⟨none, "hello"⟩,
   (c9_configuration_error stubEnvNoParse).2.2.1 (by decide) "a" "b"⟩

/-- C8 (amended): the Next-Best-Action Advisor is pure and total on every
input whose channel entry is missing, falsy, or a string: a channel that
case-insensitively reads `email` or `whatsapp` yields the asynchronous
follow-up-message recommendation and every other such channel yields the
visit/call recommendation.  On a truthy non-string channel value (within
the declared `Dict[str, Any]` domain) the advisor raises `AttributeError`
instead of returning — the original totality claim fails there. -/
theorem c8_nba_amended (extracted : List (String × Json)) :
    (∀ s, List.lookup "channel" extracted = some (Json.str s) →
       (pyLower s = "email" ∨ pyLower s = "whatsapp") →
       tool_suggest_next_best_action extracted =
         Except.ok (Json.obj [("next_best_action", Json.str NBA_ASYNC)])) ∧
    (∀ s, List.lookup "channel" extracted = some (Json.str s) →
       pyLower s ≠ "email" → pyLower s ≠ "whatsapp" →
       tool_suggest_next_best_action extracted =
         Except.ok (Json.obj [("next_best_action", Json.str NBA_VISIT)])) ∧
    (List.lookup "channel" extracted = none →
       tool_suggest_next_best_action extracted =
         Except.ok (Json.obj [("next_best_action", Json.str NBA_VISIT)])) ∧
    (∀ v, List.lookup "channel" extracted = some v → falsy v = true →
       tool_suggest_next_best_action extracted =
         Except.ok (Json.obj [("next_best_action", Json.str NBA_VISIT)])) ∧
    (∀ v, List.lookup "channel" extracted = some v → falsy v = false →
       (∀ s, v ≠ Json.str s) →
       tool_suggest_next_best_action extracted = Except.error PyErr.attributeError) := by
  refine ⟨?_, ?_, ?_, ?_, ?_⟩
  · intro s hs hlow
    by_cases hempty : s = ""
    · subst hempty
      rcases hlow with h | h <;> simp [pyLower, String.mk] at h
    · have hf : falsy (Json.str s) = false := by
        simp [falsy, hempty]
      simp only [tool_suggest_next_best_action, hs, Option.getD_some, pyOrJ, hf,
        Bool.false_eq_true, if_false]
      rcases hlow with h | h <;> simp [h]
  · intro s hs h1 h2
    by_cases hempty : s = ""
    · subst hempty
      simp [tool_suggest_next_best_action, hs, pyOrJ, falsy, pyLower, String.mk]
    · have hf : falsy (Json.str s) = false := by
        simp [falsy, hempty]
      simp only [tool_suggest_next_best_action, hs, Option.getD_some, pyOrJ, hf,
        Bool.false_eq_true, if_false]
      simp [h1, h2]
  · intro hs
    simp [tool_suggest_next_best_action, hs, pyOrJ, falsy, pyLower, String.mk]
  · intro v hs hf
    simp [tool_suggest_next_best_action, hs, pyOrJ, hf, pyLower, String.mk]
  · intro v hs hf hnotstr
    cases v with
    | str s => exact absurd rfl (hnotstr s)
    | null => simp [falsy] at hf
    | bool b => simp [tool_suggest_next_best_action, hs, pyOrJ, hf]
    | num n => simp [tool_suggest_next_best_action, hs, pyOrJ, hf]
    | arr xs => simp [tool_suggest_next_best_action, hs, pyOrJ, hf]
    | obj fs => simp [tool_suggest_next_best_action, hs, pyOrJ, hf]

/-- Witness for C8 (amended) at concrete channels: `EMAIL` maps to the
asynchronous recommendation, `call` and a missing channel map to the
visit/call recommendation. -/
theorem c8_witness :
    tool_suggest_next_best_action [("channel", Json.str "EMAIL")] =
      Except.ok (Json.obj [("next_best_action", Json.str NBA_ASYNC)]) ∧
    tool_suggest_next_best_action [("channel", Json.str "call")] =
      Except.ok (Json.obj [("next_best_action", Json.str NBA_VISIT)]) ∧
    tool_suggest_next_best_action [] =
      Except.ok (Json.obj [("next_best_action", Json.str NBA_VISIT)]) :=
  ⟨(c8_nba_amended [("channel", Json.str "EMAIL")]).1 "EMAIL" rfl (Or.inl (by decide)),
   (c8_nba_amended [("channel", Json.str "call")]).2.1 "call" rfl (by decide) (by decide),
   (c8_nba_amended []).2.2.1 rfl⟩

/-- Counterexample for C8 as stated: on a truthy non-string channel value
(here the boolean `True`, well inside the advisor's `Dict[str, Any]`
domain) the advisor raises `AttributeError` — it neither returns the
visit/call recommendation nor is total. -/
theorem c8_counterexample :
    tool_suggest_next_best_action [("channel", Json.bool true)] =
      Except.error PyErr.attributeError ∧
    tool_suggest_next_best_action [("channel", Json.bool true)] ≠
      Except.ok (Json.obj [("next_best_action", Json.str NBA_VISIT)]) := by
  constructor
  · rfl
  · intro h
    rw [show tool_suggest_next_best_action [("channel", Json.bool true)] =
      Except.error PyErr.attributeError from rfl] at h
    exact Except.noConfusion h

/-- C6: an edit aimed at an identifier matching no persisted row reports
`not_found` and leaves the store unchanged; the HTTP handler surfaces it
as a 404 error, again without a write. -/
theorem c6_edit_not_found (fromiso : String → Option Nat) (now : Nat)
    (db : List Interaction) (i : Nat) (patch : List (String × PyVal))
    (h : ∀ r ∈ db, r.id ≠ i) :
    tool_edit_interaction fromiso now db i patch = (EditResult.not_found, db) ∧
    edit_interaction fromiso now db i patch =
      (Except.error (PyErr.httpError 404 "Interaction not found"), db) := by
  have hf : db.find? (fun r => r.id == i) = none := by
    rw [List.find?_eq_none]
    intro x hx
    simpa using h x hx
  constructor
  · simp [tool_edit_interaction, hf]
  · simp [edit_interaction, tool_edit_interaction, hf]

/-- Every string either names no column (and is not a recognized field) or
names exactly the column it spells. -/
theorem colOfKey_cases (k : String) :
    (colOfKey k = none ∧ k ∉ allowedFields) ∨
    (∃ c, colOfKey k = some c ∧ k = keyOfCol c) := by
  by_cases h1 : k = "hcp_name"
  · subst h1; right; exact ⟨Col.hcp_name, by decide, by decide⟩
  by_cases h2 : k = "specialty"
  · subst h2; right; exact ⟨Col.specialty, by decide, by decide⟩
  by_cases h3 : k = "organization"
  · subst h3; right; exact ⟨Col.organization, by decide, by decide⟩
  by_cases h4 : k = "interaction_datetime"
  · subst h4; right; exact ⟨Col.interaction_datetime, by decide, by decide⟩
  by_cases h5 : k = "channel"
  · subst h5; right; exact ⟨Col.channel, by decide, by decide⟩
  by_cases h6 : k = "purpose"
  · subst h6; right; exact ⟨Col.purpose, by decide, by decide⟩
  by_cases h7 : k = "products_discussed"
  · subst h7; right; exact ⟨Col.products_discussed, by decide, by decide⟩
  by_cases h8 : k = "key_points"
  · subst h8; right; exact ⟨Col.key_points, by decide, by decide⟩
  by_cases h9 : k = "outcome"
  · subst h9; right; exact ⟨Col.outcome, by decide, by decide⟩
  by_cases h10 : k = "next_steps"
  · subst h10; right; exact ⟨Col.next_steps, by decide, by decide⟩
  by_cases h11 : k = "follow_up_date"
  · subst h11; right; exact ⟨Col.follow_up_date, by decide, by decide⟩
  by_cases h12 : k = "raw_notes"
  · subst h12; right; exact ⟨Col.raw_notes, by decide, by decide⟩
  by_cases h13 : k = "ai_summary"
  · subst h13; right; exact ⟨Col.ai_summary, by decide, by decide⟩
  by_cases h14 : k = "ai_entities_json"
  · subst h14; right; exact ⟨Col.ai_entities_json, by decide, by decide⟩
  by_cases h15 : k = "compliance_flags_json"
  · subst h15; right; exact ⟨Col.compliance_flags_json, by decide, by decide⟩
  left
  constructor
  · unfold colOfKey
    rw [if_neg h1, if_neg h2, if_neg h3, if_neg h4, if_neg h5, if_neg h6,
        if_neg h7, if_neg h8, if_neg h9, if_neg h10, if_neg h11, if_neg h12,
        if_neg h13, if_neg h14, if_neg h15]
  · intro hmem
    simp only [allowedFields, List.mem_cons, List.not_mem_nil, or_false] at hmem
    rcases hmem with h | h | h | h | h | h | h | h | h | h | h | h | h | h | h <;>
      contradiction

/-- A recognized key resolves to the column of the same name. -/
theorem colOfKey_eq_some (k : String) (c : Col) (h : colOfKey k = some c) :
    k = keyOfCol c := by
  rcases colOfKey_cases k with ⟨hn, _⟩ | ⟨c2, hc2, hk2⟩
  · rw [hn] at h
    exact Option.noConfusion h
  · rw [hc2] at h
    injection h with h2
    subst h2
    exact hk2

/-- A key is recognized exactly when it resolves to a column. -/
theorem mem_allowedFields_iff (k : String) :
    k ∈ allowedFields ↔ (colOfKey k).isSome = true := by
  rcases colOfKey_cases k with ⟨hn, hmem⟩ | ⟨c, hc, hk⟩
  · rw [hn]
    simp [hmem]
  · rw [hc]
    simp only [Option.isSome_some, iff_true]
    subst hk
    cases c <;> decide

/-- Reading a column just written gives the written value. -/
theorem getCol_setCol_same (r : Interaction) (c : Col) (v : PyVal) :
    getCol (setCol r c v) c = v := by
  cases c <;> rfl

/-- Writing one column leaves every other column unchanged. -/
theorem getCol_setCol_other (r : Interaction) (c c2 : Col) (v : PyVal)
    (hne : c2 ≠ c) : getCol (setCol r c v) c2 = getCol r c2 := by
  cases c <;> cases c2 <;> first
    | exact absurd rfl hne
    | rfl

/-- Restamping `updated_at` does not change any content column. -/
theorem getCol_updated_at (r : Interaction) (n : Nat) (c : Col) :
    getCol { r with updated_at := n } c = getCol r c := by
  cases c <;> rfl

/-- Restamping `updated_at` does not change any named column. -/
theorem getColumn_updated_at (r : Interaction) (n : Nat) (k : String) :
    getColumn { r with updated_at := n } k = getColumn r k := by
  unfold getColumn
  cases colOfKey k with
  | none => rfl
  | some c => exact getCol_updated_at r n c

/-- Writing a recognized column and reading the same name back gives the
written value. -/
theorem getColumn_setattrI_same (r : Interaction) (k : String) (v : PyVal)
    (hk : k ∈ allowedFields) : getColumn (setattrI r k v) k = v := by
  rw [mem_allowedFields_iff] at hk
  unfold setattrI getColumn
  cases hc : colOfKey k with
  | none => rw [hc] at hk; exact Bool.noConfusion hk
  | some c => exact getCol_setCol_same r c v

/-- Writing one column leaves every differently-named column unchanged. -/
theorem getColumn_setattrI_other (r : Interaction) (k0 k : String) (v : PyVal)
    (hne : k ≠ k0) : getColumn (setattrI r k0 v) k = getColumn r k := by
  unfold setattrI getColumn
  cases hc0 : colOfKey k0 with
  | none => rfl
  | some c0 =>
      cases hc : colOfKey k with
      | none => rfl
      | some c =>
          have : c ≠ c0 := by
            intro h
            subst h
            exact hne ((colOfKey_eq_some k c hc).trans (colOfKey_eq_some k0 c hc0).symm)
          exact getCol_setCol_other r c0 c v this

/-- Writing a column other than the timestamp column leaves the timestamp
column unchanged. -/
theorem setattrI_dt_other (r : Interaction) (k : String) (v : PyVal)
    (hne : k ≠ "interaction_datetime") :
    (setattrI r k v).interaction_datetime = r.interaction_datetime := by
  unfold setattrI
  cases hc : colOfKey k with
  | none => rfl
  | some c =>
      have hck : k = keyOfCol c := colOfKey_eq_some k c hc
      cases c <;> first
        | (exact absurd hck hne)
        | rfl

/-- A column write never stores `None` unless `None` is the written value. -/
theorem getColumn_setattrI_not_null (r : Interaction) (k0 k : String) (v : PyVal)
    (hv : v ≠ PyVal.vnull) (h : getColumn r k ≠ PyVal.vnull) :
    getColumn (setattrI r k0 v) k ≠ PyVal.vnull := by
  by_cases hk : k = k0
  · subst hk
    by_cases hmem : k ∈ allowedFields
    · rw [getColumn_setattrI_same r k v hmem]
      exact hv
    · have hnone : colOfKey k = none := by
        rw [mem_allowedFields_iff] at hmem
        cases hc : colOfKey k with
        | none => rfl
        | some c => rw [hc] at hmem; exact absurd rfl hmem
      have hr : setattrI r k v = r := by
        unfold setattrI
        rw [hnone]
      rw [hr]
      exact h
  · rw [getColumn_setattrI_other r k0 k v hk]
    exact h

/-- One patch-loop iteration never stores `None` into a column that did
not already hold `None` (the loop replaces a `None` patch value by the
empty string, and only ever assigns strings or parsed datetimes). -/
theorem applyPatchItem_not_null (fromiso : String → Option Nat) (r : Interaction)
    (k0 : String) (v : PyVal) (k : String) (h : getColumn r k ≠ PyVal.vnull) :
    getColumn (applyPatchItem fromiso r k0 v) k ≠ PyVal.vnull := by
  unfold applyPatchItem
  by_cases hmem : k0 ∈ allowedFields
  · simp only [hmem, if_true]
    cases v with
    | vstr s =>
        by_cases hdt : k0 = "interaction_datetime"
        · simp only [hdt, if_true]
          cases hiso : fromiso (pyReplaceZ s) with
          | none => exact h
          | some t =>
              exact getColumn_setattrI_not_null r _ k (PyVal.vdt t) (by simp) h
        · simp only [hdt, if_false]
          exact getColumn_setattrI_not_null r k0 k (PyVal.vstr s) (by simp) h
    | vnull => exact getColumn_setattrI_not_null r k0 k (PyVal.vstr "") (by simp) h
    | vdt t => exact getColumn_setattrI_not_null r k0 k (PyVal.vdt t) (by simp) h
  · simp only [hmem, if_false]
    exact h

/-- The whole patch loop never stores `None` into a column that did not
already hold `None`. -/
theorem applyPatch_not_null (fromiso : String → Option Nat)
    (patch : List (String × PyVal)) :
    ∀ (r : Interaction) (k : String), getColumn r k ≠ PyVal.vnull →
      getColumn (applyPatch fromiso r patch) k ≠ PyVal.vnull := by
  induction patch with
  | nil => intro r k h; exact h
  | cons kv tl ih =>
      intro r k h
      simp only [applyPatch, List.foldl_cons]
      exact ih _ k (applyPatchItem_not_null fromiso r kv.1 kv.2 k h)

/-- C10: patching a recognized non-timestamp field with `None` through the
edit operation stores the empty string in that field (and stamps
`updated_at`); more generally no edit can introduce `None` into a
recognized column that did not already hold it. -/
theorem c10_null_patch_empty_string (fromiso : String → Option Nat) (now : Nat)
    (r : Interaction) (k : String) (hk : k ∈ allowedFields)
    (_hne : k ≠ "interaction_datetime") :
    (∃ r2, tool_edit_interaction fromiso now [r] r.id [(k, PyVal.vnull)] =
        (EditResult.ok, [r2]) ∧ getColumn r2 k = PyVal.vstr "" ∧ r2.updated_at = now) ∧
    (∀ (patch : List (String × PyVal)) (r0 : Interaction),
       getColumn r0 k ≠ PyVal.vnull →
       getColumn (applyPatch fromiso r0 patch) k ≠ PyVal.vnull) := by
  constructor
  · refine ⟨{ applyPatch fromiso r [(k, PyVal.vnull)] with updated_at := now }, ?_, ?_, rfl⟩
    · simp [tool_edit_interaction, updateFirst]
    · rw [getColumn_updated_at]
      show getColumn (applyPatchItem fromiso r k PyVal.vnull) k = PyVal.vstr ""
      unfold applyPatchItem
      simp only [hk, if_true]
      exact getColumn_setattrI_same r k (PyVal.vstr "") hk
  · intro patch r0 h
    exact applyPatch_not_null fromiso patch r0 k h

/-- A sample persisted row for witness instantiations. -/
def sampleRow : Interaction :=
  ⟨1, PyVal.vstr "Dr. Smith", PyVal.vstr "cardiology", PyVal.vstr "ACME Clinic",
   PyVal.vdt 100, PyVal.vstr "in_person", PyVal.vstr "intro", PyVal.vstr "DrugX",
   PyVal.vstr "key points", PyVal.vstr "positive", PyVal.vstr "follow up",
   PyVal.vstr "2024-02-01", PyVal.vstr "raw notes", PyVal.vstr "summary",
   PyVal.vstr "\x7b\x7d", PyVal.vstr "\x7b\x7d", 50, 50⟩

/-- Witness for C6 at a concrete store and missing identifier. -/
theorem c6_witness :
    tool_edit_interaction (fun _ => none) 99 [sampleRow] 2
      [("hcp_name", PyVal.vstr "X")] = (EditResult.not_found, [sampleRow]) ∧
    edit_interaction (fun _ => none) 99 [sampleRow] 2
      [("hcp_name", PyVal.vstr "X")] =
      (Except.error (PyErr.httpError 404 "Interaction not found"), [sampleRow]) :=
  c6_edit_not_found (fun _ => none) 99 [sampleRow] 2
    [("hcp_name", PyVal.vstr "X")] (by decide)

/-- Witness for C10: patching `specialty` with `None` on a concrete row
stores the empty string; the no-new-null preservation holds on a concrete
patch. -/
theorem c10_witness :
    (∃ r2, tool_edit_interaction (fun _ => none) 99 [sampleRow] sampleRow.id
        [("specialty", PyVal.vnull)] = (EditResult.ok, [r2]) ∧
        getColumn r2 "specialty" = PyVal.vstr "" ∧ r2.updated_at = 99) ∧
    (getColumn (applyPatch (fun _ => none) sampleRow
        [("outcome", PyVal.vnull)]) "outcome" ≠ PyVal.vnull) :=
  ⟨(c10_null_patch_empty_string (fun _ => none) 99 sampleRow "specialty"
      (by decide) (by decide)).1,
   (c10_null_patch_empty_string (fun _ => none) 99 sampleRow "outcome"
      (by decide) (by decide)).2 [("outcome", PyVal.vnull)] sampleRow (by decide)⟩

/-- A patch entry with an unrecognized key is skipped by the loop. -/
theorem applyPatchItem_unrecognized (fromiso : String → Option Nat)
    (r : Interaction) (k : String) (v : PyVal) (h : k ∉ allowedFields) :
    applyPatchItem fromiso r k v = r := by
  unfold applyPatchItem
  rw [if_neg h]

/-- A patch whose keys are all unrecognized leaves the row unchanged. -/
theorem applyPatch_unrecognized (fromiso : String → Option Nat)
    (patch : List (String × PyVal)) :
    ∀ r : Interaction, (∀ kv ∈ patch, kv.1 ∉ allowedFields) →
      applyPatch fromiso r patch = r := by
  induction patch with
  | nil => intro r _; rfl
  | cons kv tl ih =>
      intro r h
      simp only [applyPatch, List.foldl_cons]
      rw [applyPatchItem_unrecognized fromiso r kv.1 kv.2 (h kv (List.mem_cons_self kv tl))]
      exact ih r (fun kv2 h2 => h kv2 (List.mem_cons_of_mem kv h2))

/-- One loop iteration leaves the timestamp column unchanged provided any
value it patches into `interaction_datetime` is a string that fails ISO
parsing. -/
theorem applyPatchItem_dt_unchanged (fromiso : String → Option Nat)
    (r : Interaction) (k : String) (v : PyVal)
    (h : k = "interaction_datetime" →
       ∃ s, v = PyVal.vstr s ∧ fromiso (pyReplaceZ s) = none) :
    (applyPatchItem fromiso r k v).interaction_datetime = r.interaction_datetime := by
  unfold applyPatchItem
  by_cases hmem : k ∈ allowedFields
  · rw [if_pos hmem]
    cases v with
    | vstr s =>
        dsimp only
        by_cases hdt : k = "interaction_datetime"
        · obtain ⟨s2, hv, hiso⟩ := h hdt
          injection hv with hs
          subst hs
          rw [if_pos hdt, hiso]
        · rw [if_neg hdt]
          exact setattrI_dt_other r k _ hdt
    | vnull =>
        by_cases hdt : k = "interaction_datetime"
        · obtain ⟨s2, hv, _⟩ := h hdt
          exact PyVal.noConfusion hv
        · exact setattrI_dt_other r k _ hdt
    | vdt t =>
        by_cases hdt : k = "interaction_datetime"
        · obtain ⟨s2, hv, _⟩ := h hdt
          exact PyVal.noConfusion hv
        · exact setattrI_dt_other r k _ hdt
  · rw [if_neg hmem]

/-- The whole patch loop leaves the timestamp column unchanged provided
every value patched into `interaction_datetime` is a string that fails
ISO parsing. -/
theorem applyPatch_dt_unchanged (fromiso : String → Option Nat)
    (patch : List (String × PyVal)) :
    ∀ r : Interaction,
      (∀ v, ("interaction_datetime", v) ∈ patch →
         ∃ s, v = PyVal.vstr s ∧ fromiso (pyReplaceZ s) = none) →
      (applyPatch fromiso r patch).interaction_datetime = r.interaction_datetime := by
  induction patch with
  | nil => intro r _; rfl
  | cons kv tl ih =>
      intro r h
      simp only [applyPatch, List.foldl_cons]
      have h1 : (applyPatchItem fromiso r kv.1 kv.2).interaction_datetime =
          r.interaction_datetime := by
        apply applyPatchItem_dt_unchanged
        intro hdt
        apply h kv.2
        rw [← hdt]
        exact List.mem_cons_self _ _
      have h2 := ih (applyPatchItem fromiso r kv.1 kv.2)
        (fun v hv => h v (List.mem_cons_of_mem kv hv))
      exact h2.trans h1

/-- C5: on every successful match the edit operation replaces exactly the
first row with the given id by the patched row with `updated_at` stamped
to the current time; a patch made only of unrecognized keys changes
nothing but `updated_at`; values patched into `interaction_datetime` that
are strings failing ISO parsing leave that field unchanged; and
`updated_at` is stamped regardless of whether any field changed. -/
theorem c5_edit_frame (fromiso : String → Option Nat) (now : Nat)
    (db : List Interaction) (i : Nat) (patch : List (String × PyVal))
    (r : Interaction) (hfind : db.find? (fun r2 => r2.id == i) = some r) :
    tool_edit_interaction fromiso now db i patch =
      (EditResult.ok, updateFirst (fun r2 => r2.id == i)
        (fun r2 => { applyPatch fromiso r2 patch with updated_at := now }) db) ∧
    ((∀ kv ∈ patch, kv.1 ∉ allowedFields) →
       { applyPatch fromiso r patch with updated_at := now } =
         { r with updated_at := now }) ∧
    ((∀ v, ("interaction_datetime", v) ∈ patch →
        ∃ s, v = PyVal.vstr s ∧ fromiso (pyReplaceZ s) = none) →
       (applyPatch fromiso r patch).interaction_datetime =
         r.interaction_datetime) ∧
    ({ applyPatch fromiso r patch with updated_at := now }.updated_at = now) := by
  refine ⟨?_, ?_, ?_, rfl⟩
  · simp only [tool_edit_interaction, hfind]
  · intro h
    rw [applyPatch_unrecognized fromiso patch r h]
  · intro h
    exact applyPatch_dt_unchanged fromiso patch r h

/-- Witness for C5 on a concrete row: an unrecognized-key patch changes
only `updated_at`, and a non-ISO string patched into the timestamp field
leaves it unchanged. -/
theorem c5_witness :
    tool_edit_interaction (fun _ => none) 99 [sampleRow] 1
        [("bogus", PyVal.vstr "x")] =
      (EditResult.ok,
       [{ applyPatch (fun _ => none) sampleRow [("bogus", PyVal.vstr "x")] with
            updated_at := 99 }]) ∧
    ({ applyPatch (fun _ => none) sampleRow [("bogus", PyVal.vstr "x")] with
         updated_at := 99 } = { sampleRow with updated_at := 99 }) ∧
    ((applyPatch (fun _ => none) sampleRow
        [("interaction_datetime", PyVal.vstr "not-a-date")]).interaction_datetime =
      sampleRow.interaction_datetime) :=
  ⟨(c5_edit_frame (fun _ => none) 99 [sampleRow] 1 [("bogus", PyVal.vstr "x")]
      sampleRow rfl).1,
   (c5_edit_frame (fun _ => none) 99 [sampleRow] 1 [("bogus", PyVal.vstr "x")]
      sampleRow rfl).2.1 (by decide),
   (c5_edit_frame (fun _ => none) 99 [sampleRow] 1
      [("interaction_datetime", PyVal.vstr "not-a-date")] sampleRow rfl).2.2.1
     (fun v hv => ⟨"not-a-date",
        congrArg Prod.snd (List.mem_singleton.mp hv), rfl⟩)⟩

/-- A successful advisor call returns one of the two canned
recommendations. -/
theorem tool_nba_shape (fields : List (String × Json)) (j : Json)
    (h : tool_suggest_next_best_action fields = Except.ok j) :
    j = Json.obj [("next_best_action", Json.str NBA_ASYNC)] ∨
    j = Json.obj [("next_best_action", Json.str NBA_VISIT)] := by
  unfold tool_suggest_next_best_action at h
  dsimp only at h
  cases hcv : pyOrJ ((List.lookup "channel" fields).getD Json.null) (Json.str "") with
  | str s =>
      rw [hcv] at h
      dsimp only at h
      by_cases hc : pyLower s = "email" ∨ pyLower s = "whatsapp"
      · rw [if_pos hc] at h
        injection h with h2
        exact Or.inl h2.symm
      · rw [if_neg hc] at h
        injection h with h2
        exact Or.inr h2.symm
  | null => rw [hcv] at h; exact Except.noConfusion h
  | bool b => rw [hcv] at h; exact Except.noConfusion h
  | num n => rw [hcv] at h; exact Except.noConfusion h
  | arr xs => rw [hcv] at h; exact Except.noConfusion h
  | obj fs => rw [hcv] at h; exact Except.noConfusion h

/-- Extracting the strings of an all-string JSON array succeeds. -/
theorem asStrings_map_str (ss : List String) :
    pyJoin.asStrings (ss.map Json.str) = some ss := by
  induction ss with
  | nil => rfl
  | cons s tl ih => simp [pyJoin.asStrings, ih]

/-- Joining an all-string JSON array intercalates the strings. -/
theorem pyJoin_map_str (sep : String) (ss : List String) :
    pyJoin sep (Json.arr (ss.map Json.str)) =
      Except.ok (String.intercalate sep ss) := by
  unfold pyJoin
  dsimp only
  rw [asStrings_map_str]

/-- When the flags extraction succeeds the compliance value (after
defaulting) is a dict. -/
theorem respondFlags_ok_obj (st : AgentState) (f : Json)
    (h : respondFlags st = Except.ok f) :
    ∃ fs, respondComp st = Json.obj fs := by
  unfold respondFlags pyGet at h
  cases hc : respondComp st with
  | obj fs => exact ⟨fs, rfl⟩
  | null => rw [hc] at h; exact Except.noConfusion h
  | bool b => rw [hc] at h; exact Except.noConfusion h
  | num n => rw [hc] at h; exact Except.noConfusion h
  | str s => rw [hc] at h; exact Except.noConfusion h
  | arr xs => rw [hc] at h; exact Except.noConfusion h

/-- The severity extraction on a dict compliance value. -/
theorem respondSev_of_obj (st : AgentState) (fs : List (String × Json))
    (h : respondComp st = Json.obj fs) :
    respondSev st = Except.ok
      (pyOrJ ((List.lookup "severity" fs).getD Json.null) (Json.str "low")) := by
  unfold respondSev pyGet
  rw [h]

/-- Core of C3, for a fixed advisor recommendation `nba` whose composed
message is known to be free of the warning marker. -/
theorem c3_core (st : AgentState) (ss : List String) (fs : List (String × Json))
    (nba : String)
    (hj : tool_suggest_next_best_action ((st.extracted.getD emptyDraft).toFields) =
       Except.ok (Json.obj [("next_best_action", Json.str nba)]))
    (hcomp : respondComp st = Json.obj fs)
    (hflags : respondFlags st = Except.ok (Json.arr (ss.map Json.str)))
    (hwm : '⚠' ∉ ((RESPOND_HEAD ++ nba ++ "\n") ++ FINAL_LINE).data) :
    ∃ msg, node_respond st = Except.ok { st with assistant_message := some msg } ∧
      (pyContains msg WARN_PREFIX ↔ (ss ≠ [] ∧ ss ≠ ["parse_error"])) := by
  have hsev := respondSev_of_obj st fs hcomp
  have hget : pyGet (Json.obj [("next_best_action", Json.str nba)])
      "next_best_action" = Except.ok (some (Json.str nba)) := rfl
  by_cases hcond : ss ≠ [] ∧ ss ≠ ["parse_error"]
  · have hfalsy : falsy (Json.arr (ss.map Json.str)) = false := by
      cases ss with
      | nil => exact absurd rfl hcond.1
      | cons a tl => rfl
    have hpe : isParseErrorList (Json.arr (ss.map Json.str)) = false := by
      cases ss with
      | nil => rfl
      | cons a tl =>
          cases tl with
          | nil =>
              by_cases ha : a = "parse_error"
              · exact absurd (by rw [ha]) hcond.2
              · simp [isParseErrorList, ha]
          | cons b tl2 => rfl
    refine ⟨(RESPOND_HEAD ++ nba ++ "\n" ++
        (WARN_PREFIX ++
          pyStr (pyOrJ ((List.lookup "severity" fs).getD Json.null) (Json.str "low")) ++
          "): " ++ String.intercalate ", " ss ++ "\n")) ++ FINAL_LINE, ?_, ?_⟩
    · simp only [node_respond, hj, hget, hflags, hsev, hfalsy, hpe,
        pyJoin_map_str, Option.getD_some, pyStr, Bool.false_eq_true,
        not_false_eq_true, and_self, if_true]
    · apply iff_of_true
      · exact ⟨(RESPOND_HEAD ++ nba ++ "\n").data,
          (pyStr (pyOrJ ((List.lookup "severity" fs).getD Json.null)
             (Json.str "low")) ++ "): " ++ String.intercalate ", " ss ++ "\n").data
            ++ FINAL_LINE.data,
          by simp [pyContains, String.data_append, List.append_assoc]⟩
      · exact hcond
  · have hcondfalse : ¬ (¬ falsy (Json.arr (ss.map Json.str)) = true ∧
        ¬ isParseErrorList (Json.arr (ss.map Json.str)) = true) := by
      have hor : ss = [] ∨ ss = ["parse_error"] := by
        by_cases h1 : ss = []
        · exact Or.inl h1
        · by_cases h2 : ss = ["parse_error"]
          · exact Or.inr h2
          · exact absurd ⟨h1, h2⟩ hcond
      rcases hor with rfl | rfl
      · intro hc
        exact hc.1 rfl
      · intro hc
        exact hc.2 rfl
    refine ⟨(RESPOND_HEAD ++ nba ++ "\n") ++ FINAL_LINE, ?_, ?_⟩
    · simp only [node_respond, hj, hget, hflags, hsev, Option.getD_some, pyStr]
      rw [if_neg hcondfalse]
    · apply iff_of_false
      · intro hc
        exact hwm (hc.subset (by decide : '⚠' ∈ WARN_PREFIX.data))
      · exact hcond

/-- C3: whenever the advisor succeeds and the compliance flags value is a
list of strings, the Response Composer succeeds and its message contains
the compliance warning line if and only if that list is non-empty and is
not exactly `["parse_error"]`. -/
theorem c3_warning_iff (st : AgentState) (ss : List String)
    (hnba : ∃ j, tool_suggest_next_best_action
       ((st.extracted.getD emptyDraft).toFields) = Except.ok j)
    (hflags : respondFlags st = Except.ok (Json.arr (ss.map Json.str))) :
    ∃ msg, node_respond st = Except.ok { st with assistant_message := some msg } ∧
      (pyContains msg WARN_PREFIX ↔ (ss ≠ [] ∧ ss ≠ ["parse_error"])) := by
  obtain ⟨j, hj⟩ := hnba
  obtain ⟨fs, hcomp⟩ := respondFlags_ok_obj st _ hflags
  rcases tool_nba_shape _ j hj with hje | hje
  · subst hje
    exact c3_core st ss fs NBA_ASYNC hj hcomp hflags (by decide)
  · subst hje
    exact c3_core st ss fs NBA_VISIT hj hcomp hflags (by decide)

/-- A concrete state with one real compliance flag, for the C3 witness. -/
def c3WitnessState : AgentState :=
  { user_message := "Met Dr. Smith",
    compliance := some (Json.obj
      [("flags", Json.arr [Json.str "off_label"]),
       ("severity", Json.str "high")]) }

/-- Witness for C3 at a concrete state carrying one `off_label` flag. -/
theorem c3_witness :
    ∃ msg, node_respond c3WitnessState =
        Except.ok { c3WitnessState with assistant_message := some msg } ∧
      (pyContains msg WARN_PREFIX ↔
        ((["off_label"] : List String) ≠ [] ∧
         (["off_label"] : List String) ≠ ["parse_error"])) :=
  c3_warning_iff c3WitnessState ["off_label"] ⟨_, rfl⟩ rfl

/-- The entity field names that `node_extract` copies with an
empty-string default (all of the extraction schema except `channel`,
which has its own default). -/
def entityKeys : List String :=
  ["hcp_name", "specialty", "organization", "purpose", "products_discussed",
   "key_points", "outcome", "next_steps", "follow_up_date"]

/-- Reads the draft field of an entity name (verification-side accessor). -/
def Draft.entityField (d : Draft) : String → Json
  | "hcp_name" => d.hcp_name
  | "specialty" => d.specialty
  | "organization" => d.organization
  | "purpose" => d.purpose
  | "products_discussed" => d.products_discussed
  | "key_points" => d.key_points
  | "outcome" => d.outcome
  | "next_steps" => d.next_steps
  | "follow_up_date" => d.follow_up_date
  | _ => Json.null

/-- C7 (amended): when the extraction result is a dict and its entities
value (after defaulting) is a dict, `node_extract` succeeds and builds a
draft in which every entity field missing from the entities mapping is the
empty string and every present entity field carries the mapped value
verbatim (so an explicit JSON `null` is stored as `null`); the channel is
`in_person` whenever the extracted channel is missing or falsy and is
kept verbatim otherwise; `raw_notes` is the original user message and the
interaction timestamp is the current clock reading. -/
theorem c7_extract_draft_amended (env : Env) (st : AgentState)
    (rs es : List (String × Json))
    (hres : tool_summarize_and_extract env st.user_message =
       Except.ok (Json.obj rs))
    (hent : pyOrJ ((List.lookup "entities" rs).getD Json.null) (Json.obj []) =
       Json.obj es) :
    ∃ draft, node_extract env st = Except.ok { st with extracted := some draft } ∧
      (∀ k, k ∈ entityKeys →
        (List.lookup k es = none → draft.entityField k = Json.str "") ∧
        (∀ v, List.lookup k es = some v → draft.entityField k = v)) ∧
      ((List.lookup "channel" es = none ∨
        (∃ v, List.lookup "channel" es = some v ∧ falsy v = true)) →
        draft.channel = Json.str "in_person") ∧
      (∀ v, List.lookup "channel" es = some v → falsy v = false →
        draft.channel = v) ∧
      draft.raw_notes = Json.str st.user_message ∧
      draft.interaction_datetime = Json.str env.now := by
  unfold node_extract
  rw [hres]
  dsimp only
  rw [hent]
  dsimp only
  refine ⟨_, rfl, ?_, ?_, ?_, rfl, rfl⟩
  · intro k hk
    fin_cases hk <;>
      exact ⟨fun h => by simp [Draft.entityField, h],
             fun v h => by simp [Draft.entityField, h]⟩
  · intro h
    rcases h with h | ⟨v, hv, hf⟩
    · simp [h, pyOrJ, falsy]
    · simp [hv, pyOrJ, hf]
  · intro v hv hf
    simp [hv, pyOrJ, hf]

/-- An environment whose model stub answers a well-formed extraction
object that maps `hcp_name` to JSON `null`. -/
def c7CexEnv : Env :=
  ⟨"key", fun _ _ => some "reply",
   fun _ => some (Json.obj
     [("summary", Json.str "s"),
      ("entities", Json.obj [("hcp_name", Json.null)])]),
   fun _ => "", "2024-01-01T00:00:00"⟩

/-- Counterexample for C7 as stated: when the model maps `hcp_name` to an
explicit JSON `null`, the draft stores `null` in that entity field — not
the empty string — so the draft entity fields are not `never null`. -/
theorem c7_counterexample :
    ∃ draft, node_extract c7CexEnv { user_message := "note" } =
        Except.ok { ({ user_message := "note" } : AgentState) with
          extracted := some draft } ∧
      draft.hcp_name = Json.null ∧ draft.hcp_name ≠ Json.str "" := by
  refine ⟨_, rfl, rfl, ?_⟩
  intro h
  exact Json.noConfusion h

/-- An environment whose model stub answers an extraction object with an
empty-string `hcp_name`, an empty `channel`, and no other entities. -/
def c7WitnessEnv : Env :=
  ⟨"key", fun _ _ => some "reply",
   fun _ => some (Json.obj
     [("summary", Json.str "sum"),
      ("entities", Json.obj
        [("hcp_name", Json.str ""), ("channel", Json.str "")])]),
   fun _ => "\x7b\x7d", "2024-06-01T00:00:00"⟩

/-- Witness for C7 (amended): a missing `specialty` becomes the empty
string, an empty `hcp_name` stays the empty string, an empty channel
defaults to `in_person`, and `raw_notes` is the message verbatim. -/
theorem c7_witness :
    ∃ draft, node_extract c7WitnessEnv { user_message := "m" } =
        Except.ok { ({ user_message := "m" } : AgentState) with
          extracted := some draft } ∧
      draft.specialty = Json.str "" ∧ draft.hcp_name = Json.str "" ∧
      draft.channel = Json.str "in_person" ∧ draft.raw_notes = Json.str "m" := by
  obtain ⟨draft, heq, hent, hchan, _, hraw, _⟩ :=
    c7_extract_draft_amended c7WitnessEnv { user_message := "m" }
      [("summary", Json.str "sum"),
       ("entities", Json.obj [("hcp_name", Json.str ""), ("channel", Json.str "")])]
      [("hcp_name", Json.str ""), ("channel", Json.str "")] rfl rfl
  refine ⟨draft, heq, ?_, ?_, ?_, hraw⟩
  · exact (hent "specialty" (by decide)).1 rfl
  · exact (hent "hcp_name" (by decide)).2 (Json.str "") rfl
  · exact hchan (Or.inr ⟨Json.str "", rfl, rfl⟩)

/-- Overwrites the draft timestamp with a given clock reading. -/
def stampDraft (t : String) (d : Draft) : Draft :=
  { d with interaction_datetime := Json.str t }

/-- Applies `stampDraft` to the draft carried by a state, if any. -/
def stampState (t : String) (st : AgentState) : AgentState :=
  { st with extracted := st.extracted.map (stampDraft t) }

/-- Applies `stampDraft` to the draft carried by a chat response, if any. -/
def stampResp (t : String) (r : ChatResp) : ChatResp :=
  { r with draft_interaction := r.draft_interaction.map (stampDraft t) }

/-- The extraction node at one clock reading equals the node at any other
clock reading with the draft timestamp overwritten: the clock only enters
through `interaction_datetime`. -/
theorem node_extract_stamp (key : String) (svc : String → String → Option String)
    (pj : String → Option Json) (dp : Json → String) (t1 t2 : String)
    (st : AgentState) :
    node_extract ⟨key, svc, pj, dp, t1⟩ st =
      (node_extract ⟨key, svc, pj, dp, t2⟩ st).map (stampState t1) := by
  have htool : tool_summarize_and_extract ⟨key, svc, pj, dp, t1⟩ st.user_message =
      tool_summarize_and_extract ⟨key, svc, pj, dp, t2⟩ st.user_message := rfl
  unfold node_extract
  rw [htool]
  cases tool_summarize_and_extract ⟨key, svc, pj, dp, t2⟩ st.user_message with
  | error e => rfl
  | ok result =>
      cases result with
      | null => rfl
      | bool b => rfl
      | num n => rfl
      | str s => rfl
      | arr xs => rfl
      | obj rs =>
          dsimp only
          cases pyOrJ ((List.lookup "entities" rs).getD Json.null) (Json.obj []) with
          | null => rfl
          | bool b => rfl
          | num n => rfl
          | str s => rfl
          | arr xs => rfl
          | obj es => rfl

/-- The compliance node commutes with the timestamp overwrite and ignores
the clock reading of its environment. -/
theorem node_compliance_stamp (key : String) (svc : String → String → Option String)
    (pj : String → Option Json) (dp : Json → String) (t1 t2 t : String)
    (st : AgentState) :
    node_compliance ⟨key, svc, pj, dp, t1⟩ (stampState t st) =
      (node_compliance ⟨key, svc, pj, dp, t2⟩ st).map (stampState t) := by
  have htool : ∀ c, tool_compliance_check_llm ⟨key, svc, pj, dp, t1⟩ c =
      tool_compliance_check_llm ⟨key, svc, pj, dp, t2⟩ c := fun _ => rfl
  cases hex : st.extracted with
  | none =>
      simp only [node_compliance, stampState, hex, htool, Option.map_none',
        Option.getD_none]
      cases tool_compliance_check_llm ⟨key, svc, pj, dp, t2⟩
          (pyStr emptyDraft.raw_notes ++ "\nSummary: " ++ pyStr emptyDraft.ai_summary) with
      | error e => rfl
      | ok c => rfl
  | some d =>
      simp only [node_compliance, stampState, hex, htool, Option.map_some',
        Option.getD_some, stampDraft]
      cases tool_compliance_check_llm ⟨key, svc, pj, dp, t2⟩
          (pyStr d.raw_notes ++ "\nSummary: " ++ pyStr d.ai_summary) with
      | error e => rfl
      | ok c => rfl

/-- The response node commutes with the timestamp overwrite: it reads
only the channel, the flags and the severity, none of which the overwrite
touches. -/
theorem node_respond_stamp (t : String) (st : AgentState) :
    node_respond (stampState t st) = (node_respond st).map (stampState t) := by
  have hdraft : tool_suggest_next_best_action
      (((stampState t st).extracted.getD emptyDraft).toFields) =
      tool_suggest_next_best_action ((st.extracted.getD emptyDraft).toFields) := by
    cases hex : st.extracted with
    | none =>
        simp only [stampState, hex]
        rfl
    | some d =>
        simp only [stampState, hex]
        rfl
  have hflags : respondFlags (stampState t st) = respondFlags st := rfl
  have hsev : respondSev (stampState t st) = respondSev st := rfl
  unfold node_respond
  dsimp only
  rw [hdraft, hflags, hsev]
  cases tool_suggest_next_best_action ((st.extracted.getD emptyDraft).toFields) with
  | error e => rfl
  | ok nbaObj =>
      dsimp only
      cases pyGet nbaObj "next_best_action" with
      | error e => rfl
      | ok nbaOpt =>
          dsimp only
          cases respondFlags st with
          | error e => rfl
          | ok flags =>
              dsimp only
              cases respondSev st with
              | error e => rfl
              | ok sev =>
                  dsimp only
                  by_cases hcond : ¬ falsy flags = true ∧ ¬ isParseErrorList flags = true
                  · rw [if_pos hcond, if_pos hcond]
                    cases pyJoin ", " flags with
                    | error e => rfl
                    | ok joined => rfl
                  · rw [if_neg hcond, if_neg hcond]
                    rfl

/-- C4 (amended): two chat-pipeline runs on the same message with the
same deterministic model stub produce the same result up to the draft
timestamp: the assistant messages are always identical and the drafts
agree except for `interaction_datetime`, which carries the clock reading
taken during extraction; with the clock also held fixed the two runs are
fully identical. -/
theorem c4_pipeline_determinism_amended (key : String)
    (svc : String → String → Option String) (pj : String → Option Json)
    (dp : Json → String) (t1 t2 : String) (req : ChatReq) :
    agent_chat ⟨key, svc, pj, dp, t1⟩ req =
      (agent_chat ⟨key, svc, pj, dp, t2⟩ req).map (stampResp t1) ∧
    (agent_chat ⟨key, svc, pj, dp, t1⟩ req).map (fun r => r.assistant_message) =
      (agent_chat ⟨key, svc, pj, dp, t2⟩ req).map (fun r => r.assistant_message) ∧
    (t1 = t2 → agent_chat ⟨key, svc, pj, dp, t1⟩ req =
       agent_chat ⟨key, svc, pj, dp, t2⟩ req) := by
  have hmain : agent_chat ⟨key, svc, pj, dp, t1⟩ req =
      (agent_chat ⟨key, svc, pj, dp, t2⟩ req).map (stampResp t1) := by
    unfold agent_chat
    dsimp only
    rw [node_extract_stamp key svc pj dp t1 t2]
    cases node_extract ⟨key, svc, pj, dp, t2⟩
        (node_route_intent
          { thread_id := some (pyOrS req.thread_id "default"),
            user_message := req.message }) with
    | error e => rfl
    | ok st2 =>
        dsimp only [Except.map]
        rw [node_compliance_stamp key svc pj dp t1 t2 t1]
        cases node_compliance ⟨key, svc, pj, dp, t2⟩ st2 with
        | error e => rfl
        | ok st3 =>
            dsimp only [Except.map]
            rw [node_respond_stamp t1]
            cases node_respond st3 with
            | error e => rfl
            | ok out => rfl
  refine ⟨hmain, ?_, ?_⟩
  · rw [hmain]
    cases agent_chat ⟨key, svc, pj, dp, t2⟩ req with
    | error e => rfl
    | ok r => rfl
  · intro h
    subst h
    rfl

/-- The deterministic model stub used for the C4 instantiations. -/
def c4Svc : String → String → Option String := fun _ _ => some "reply"

/-- The parse stub for C4 (the reply never parses, which exercises the
degraded — but fully deterministic — pipeline path). -/
def c4Pj : String → Option Json := fun _ => none

/-- The serializer stub for C4. -/
def c4Dp : Json → String := fun _ => "\x7b\x7d"

/-- The C4 environment at a given clock reading. -/
def c4Env (t : String) : Env := ⟨"key", c4Svc, c4Pj, c4Dp, t⟩

/-- The C4 request. -/
def c4Req : ChatReq := ⟨none, "met dr smith"⟩

/-- Reads the draft timestamp out of a chat response. -/
def chatDt : Except PyErr ChatResp → Option Json
  | Except.ok r => r.draft_interaction.map (fun d => d.interaction_datetime)
  | Except.error _ => none

/-- Counterexample for C4 as stated: two runs of the chat pipeline on the
identical message with the identical deterministic model stub, one second
apart on the process clock, return different `draft_interaction` values
(their `interaction_datetime` fields differ), although the assistant
messages agree. -/
theorem c4_counterexample :
    agent_chat (c4Env "2024-01-01T00:00:00") c4Req ≠
      agent_chat (c4Env "2024-01-01T00:00:01") c4Req ∧
    (agent_chat (c4Env "2024-01-01T00:00:00") c4Req).map
        (fun r => r.assistant_message) =
      (agent_chat (c4Env "2024-01-01T00:00:01") c4Req).map
        (fun r => r.assistant_message) := by
  constructor
  · intro h
    have hA : chatDt (agent_chat (c4Env "2024-01-01T00:00:00") c4Req) =
        some (Json.str "2024-01-01T00:00:00") := rfl
    have hB : chatDt (agent_chat (c4Env "2024-01-01T00:00:01") c4Req) =
        some (Json.str "2024-01-01T00:00:01") := rfl
    have h2 := congrArg chatDt h
    rw [hA, hB] at h2
    injection h2 with h3
    injection h3 with h4
    exact absurd h4 (by decide)
  · rfl

/-- Witness for C4 (amended) at the concrete stub: the two runs agree up
to the draft timestamp, the messages agree, and with the clock frozen the
runs are fully identical. -/
theorem c4_witness :
    agent_chat (c4Env "2024-01-01T00:00:00") c4Req =
      (agent_chat (c4Env "2024-01-01T00:00:01") c4Req).map
        (stampResp "2024-01-01T00:00:00") ∧
    (agent_chat (c4Env "2024-01-01T00:00:00") c4Req).map
        (fun r => r.assistant_message) =
      (agent_chat (c4Env "2024-01-01T00:00:01") c4Req).map
        (fun r => r.assistant_message) ∧
    agent_chat (c4Env "2024-01-01T00:00:00") c4Req =
      agent_chat (c4Env "2024-01-01T00:00:00") c4Req :=
  ⟨(c4_pipeline_determinism_amended "key" c4Svc c4Pj c4Dp
      "2024-01-01T00:00:00" "2024-01-01T00:00:01" c4Req).1,
   (c4_pipeline_determinism_amended "key" c4Svc c4Pj c4Dp
      "2024-01-01T00:00:00" "2024-01-01T00:00:01" c4Req).2.1,
   (c4_pipeline_determinism_amended "key" c4Svc c4Pj c4Dp
      "2024-01-01T00:00:00" "2024-01-01T00:00:00" c4Req).2.2 rfl⟩
